import Mathlib

/-!
Verification of the DMSt scoring QA checker (`qa_verify_scoring.py`).

The script recomputes, for each flight record, the DMSt Free score and the
DMSt Task score from the flight's `au` contest geometry, declared task data
and handicap index, and compares them against externally reported values
within a fixed tolerance.

Embedding conventions:
* Python `Decimal` values are modelled as exact rationals `ℚ`.  The script
  sets a working precision of 12 significant digits; every operation the
  claims exercise (sums and products of table constants with input
  distances, one division by the index factor) is represented exactly by
  the corresponding rational operation.
* JSON absence/null is `Option.none`; Python truthiness of a numeric field
  (`if x:`) is "present and nonzero" (`truthyQ`); `x is True` / `x is False`
  are `== some true` / `== some false` on an `Option Bool` field.
* `str.upper()` on the ASCII kind tags is `strUpper` (char-wise upcasing).
* The per-line loop body of `main` (everything between reading a record and
  appending a `Result`) is `processFlight`; a Python `continue` is `none`.
  The surrounding file I/O and JSON parsing are outside the model.
-/

namespace QAScoring

/-- Points tolerance before a mismatch is flagged (`TOLERANCE = Decimal("0.2")`). -/
def TOLERANCE : ℚ := 2 / 10

/-- DMSt shape bonuses by contest/task kind (the `DMST_BONUS` dict, in source order). -/
def DMST_BONUS : List (String × ℚ) :=
  [("TR", 40 / 100),
   ("TRIANGLE", 40 / 100),
   ("DECLARATION", 30 / 100),
   ("OR", 30 / 100),
   ("OUT_RETURN", 30 / 100),
   ("GL", 30 / 100),
   ("OUT", 30 / 100),
   ("GOAL", 30 / 100),
   ("RT", 40 / 100),
   ("RECTANGLE", 40 / 100),
   ("MTR", 20 / 100),
   ("FR", 0),
   ("FR4", 0),
   ("SP", 0),
   ("SPEED", 0)]

/-- Character-wise upper-casing, agreeing with Python `str.upper()` on the ASCII
kind tags the table uses. -/
def strUpper (s : String) : String :=
  String.mk (s.data.map Char.toUpper)

/-- The `get_bonus` helper: falsy kind (absent or empty string) gives 0, otherwise a
case-insensitive dictionary lookup defaulting to 0. -/
def get_bonus (kind : Option String) : ℚ :=
  match kind with
  | none => 0
  | some k => if k = "" then 0 else (DMST_BONUS.lookup (strUpper k)).getD 0

/-- The score breakdown of a contest entry (`score:{distance, name, declared}`). -/
structure Score where
  distance : Option ℚ
  name : Option String
  declared : Option Bool
deriving DecidableEq, Repr

/-- One entry of a flight's `contest` list (`{name, points, score}`). -/
structure Contest where
  name : Option String
  points : Option ℚ
  score : Option Score
deriving DecidableEq, Repr

/-- The declared task sub-record (`task:{distance, kind}`). -/
structure Task where
  distance : Option ℚ
  kind : Option String
deriving DecidableEq, Repr

/-- An input flight record, restricted to the fields the script reads. -/
structure Flight where
  id : Option ℤ
  dmst_index : Option ℤ
  contest : Option (List Contest)
  task : Option Task
  task_achieved : Option Bool
deriving DecidableEq, Repr

/-- The `Result` record: `__init__` leaves both expected and actual scores unset
and the notes empty; `processFlight` fills some of them in. -/
structure Result where
  flight_id : Option ℤ
  dmst_index : ℤ
  free_expected : Option ℚ
  free_actual : Option ℚ
  task_expected : Option ℚ
  task_actual : Option ℚ
  task_notes : String
deriving DecidableEq, Repr

/-- `Result(flight_id, dmst_index)`: all score fields start as `None`, notes empty. -/
def Result.init (flight_id : Option ℤ) (dmst_index : ℤ) : Result :=
  { flight_id := flight_id, dmst_index := dmst_index,
    free_expected := none, free_actual := none,
    task_expected := none, task_actual := none, task_notes := "" }

/-- `Result.free_matches`: a null on either side matches vacuously, otherwise the
absolute difference is compared against the tolerance. -/
def Result.free_matches (r : Result) : Bool :=
  match r.free_expected, r.free_actual with
  | some e, some a => decide (|e - a| ≤ TOLERANCE)
  | _, _ => true

/-- `Result.task_matches`: same comparison for the task score pair. -/
def Result.task_matches (r : Result) : Bool :=
  match r.task_expected, r.task_actual with
  | some e, some a => decide (|e - a| ≤ TOLERANCE)
  | _, _ => true

/-- Python truthiness of an optional number: present and nonzero. -/
def truthyQ : Option ℚ → Bool
  | some d => d != 0
  | none => false

/-- Embedding of `next((c for c in contests if c.get("name") == nm), None)`. -/
def findContest (contests : List Contest) (nm : String) : Option Contest :=
  contests.find? (fun c => c.name == some nm)

/-- `score = au_contest.get("score") or {}`: a missing score breakdown behaves as an
empty dict, whose every field reads as absent. -/
def scoreOrEmpty (c : Contest) : Score :=
  c.score.getD { distance := none, name := none, declared := none }

/-- The local `task_distance` (absent unless a truthy `task` dict carries it). -/
def taskDistance (flight : Flight) : Option ℚ :=
  match flight.task with
  | some t => t.distance
  | none => none

/-- The local `task_kind`. -/
def taskKind (flight : Flight) : Option String :=
  match flight.task with
  | some t => t.kind
  | none => none

/-- The free-score branch: when the `au` score distance is truthy, set
`free_expected = dist * (1 + bonus) / idx_factor`. -/
def computeFree (idx_factor : ℚ) (s : Score) (res : Result) : Result :=
  if truthyQ s.distance then
    { res with
        free_expected := some ((s.distance.getD 0) * (1 + get_bonus s.name) / idx_factor) }
  else res

/-- The task-score branches: path 1 uses the declared task's distance and kind plus
a 0.30 achieved bonus; otherwise path 2 uses the `au` score's distance and name
when the declared flag is truthy, adding 0.30 under the same (always-true) flag. -/
def computeTask (idx_factor : ℚ) (au_score_distance : Option ℚ)
    (au_score_name : Option String) (au_declared : Option Bool)
    (task_distance : Option ℚ) (task_kind : Option String)
    (task_achieved : Bool) (res : Result) : Result :=
  if truthyQ task_distance then
    let base := task_distance.getD 0
    let bonus := get_bonus task_kind
    let multiplier_actual := 1 + bonus + (if task_achieved then (30 : ℚ) / 100 else 0)
    { res with task_expected := some (base * multiplier_actual / idx_factor),
               task_notes := "actual" }
  else if au_declared == some true && truthyQ au_score_distance then
    let base := au_score_distance.getD 0
    let bonus := get_bonus au_score_name
    let m := (1 : ℚ) + bonus
    let multiplier_actual := if au_declared == some true then m + (30 : ℚ) / 100 else m
    { res with task_expected := some (base * multiplier_actual / idx_factor),
               task_notes := "from au distance" }
  else res

/-- The final override: a declared flag that is explicitly false, together with a
computed free score, forces `task_expected` back to null. -/
def applyDeclaredFalse (au_declared : Option Bool) (res : Result) : Result :=
  if au_declared == some false && res.free_expected.isSome then
    { res with task_expected := none }
  else res

/-- One iteration of the main loop: `none` is a `continue` (record skipped),
`some r` is the `Result` appended to the results list. -/
def processFlight (flight : Flight) : Option Result :=
  match flight.dmst_index with
  | none => none
  | some dmst_index =>
    if dmst_index = 0 then none
    else if ((dmst_index : ℚ) / 100) = 0 then none
    else
      match findContest (flight.contest.getD []) "au" with
      | none => none
      | some au_contest =>
        let score := scoreOrEmpty au_contest
        let task_achieved := flight.task_achieved == some true
        some (applyDeclaredFalse score.declared
          (computeTask ((dmst_index : ℚ) / 100) score.distance score.name score.declared
            (taskDistance flight) (taskKind flight) task_achieved
            (computeFree ((dmst_index : ℚ) / 100) score (Result.init flight.id dmst_index))))

/-- The full pass over the input: the `results` list of the run. -/
def processAll (flights : List Flight) : List Result :=
  flights.filterMap processFlight

/-- Embedding of `free_mismatches = [r for r in results if not r.free_matches()]`. -/
def free_mismatches (results : List Result) : List Result :=
  results.filter (fun r => !r.free_matches)

/-- Embedding of `task_mismatches = [r for r in results if not r.task_matches()]`. -/
def task_mismatches (results : List Result) : List Result :=
  results.filter (fun r => !r.task_matches)

/-- Spec-side bonus listing, written from the specification's configuration table:
TR/TRIANGLE/RT/RECTANGLE give 0.40, DECLARATION and OR/OUT_RETURN/GL/OUT/GOAL give
0.30, MTR gives 0.20, FR/FR4/SP/SPEED give 0, and every unknown tag gives 0. -/
def specBonusKey (u : String) : ℚ :=
  if u = "TR" ∨ u = "TRIANGLE" ∨ u = "RT" ∨ u = "RECTANGLE" then 40 / 100
  else if u = "DECLARATION" then 30 / 100
  else if u = "OR" ∨ u = "OUT_RETURN" ∨ u = "GL" ∨ u = "OUT" ∨ u = "GOAL" then 30 / 100
  else if u = "MTR" then 20 / 100
  else if u = "FR" ∨ u = "FR4" ∨ u = "SP" ∨ u = "SPEED" then 0
  else 0

/-- Spec-side bonus lookup: case-insensitive via upper-casing, absent tag gives 0. -/
def specBonus (kind : Option String) : ℚ :=
  match kind with
  | none => 0
  | some k => specBonusKey (strUpper k)

/-! Concrete fixture records used by the per-claim witnesses and counterexamples. -/

def c1Contest : Contest :=
  { name := some "au", points := some 420,
    score := some { distance := some 300, name := some "TR", declared := none } }

def c1Flight : Flight :=
  { id := some 1, dmst_index := some 100, contest := some [c1Contest],
    task := none, task_achieved := none }

def c2Contest : Contest :=
  { name := some "au", points := some 325,
    score := some { distance := some 300, name := some "TR", declared := some true } }

def c2Flight : Flight :=
  { id := some 2, dmst_index := some 100, contest := some [c2Contest],
    task := some { distance := some 250, kind := some "SP" },
    task_achieved := some true }

def c3Contest : Contest :=
  { name := some "au", points := some 420,
    score := some { distance := some 300, name := some "TR", declared := some true } }

def c3Flight : Flight :=
  { id := some 3, dmst_index := some 100, contest := some [c3Contest],
    task := none, task_achieved := none }

def c4Contest : Contest :=
  { name := some "au", points := some 420,
    score := some { distance := some 300, name := some "FR", declared := some false } }

def c4Flight : Flight :=
  { id := some 4, dmst_index := some 100, contest := some [c4Contest],
    task := some { distance := some 200, kind := some "GOAL" },
    task_achieved := some true }

def c5Contest : Contest :=
  { name := some "au", points := some 140,
    score := some { distance := some 100, name := some "FR", declared := none } }

def c5Flight : Flight :=
  { id := some 5, dmst_index := some 100, contest := some [c5Contest],
    task := none, task_achieved := none }

def c6FreeRes : Result :=
  { flight_id := some 6, dmst_index := 100,
    free_expected := some 1, free_actual := some (6 / 5),
    task_expected := none, task_actual := none, task_notes := "" }

def c6TaskRes : Result :=
  { flight_id := some 6, dmst_index := 100,
    free_expected := none, free_actual := none,
    task_expected := some 0, task_actual := some (2000001 / 10000000),
    task_notes := "" }

def c7Res : Result := Result.init (some 7) 100

def c9Flight : Flight :=
  { id := some 9, dmst_index := some 0, contest := some [], task := none,
    task_achieved := none }

def c10Contest : Contest :=
  { name := some "au", points := some 420,
    score := some { distance := some 300, name := some "TR", declared := none } }

def c10Flight : Flight :=
  { id := some 10, dmst_index := some (-100), contest := some [c10Contest],
    task := none, task_achieved := none }

/-! Projection lemmas: each stage of the pipeline only writes the fields its
source branch assigns, so the remaining `Result` fields pass through. -/

@[simp] lemma init_free_expected (i : Option ℤ) (n : ℤ) :
    (Result.init i n).free_expected = none := rfl

@[simp] lemma init_free_actual (i : Option ℤ) (n : ℤ) :
    (Result.init i n).free_actual = none := rfl

@[simp] lemma init_task_expected (i : Option ℤ) (n : ℤ) :
    (Result.init i n).task_expected = none := rfl

@[simp] lemma init_task_actual (i : Option ℤ) (n : ℤ) :
    (Result.init i n).task_actual = none := rfl

@[simp] lemma computeFree_free_actual (idx : ℚ) (s : Score) (res : Result) :
    (computeFree idx s res).free_actual = res.free_actual := by
  unfold computeFree
  split <;> rfl

@[simp] lemma computeFree_task_expected (idx : ℚ) (s : Score) (res : Result) :
    (computeFree idx s res).task_expected = res.task_expected := by
  unfold computeFree
  split <;> rfl

@[simp] lemma computeFree_task_actual (idx : ℚ) (s : Score) (res : Result) :
    (computeFree idx s res).task_actual = res.task_actual := by
  unfold computeFree
  split <;> rfl

@[simp] lemma computeFree_task_notes (idx : ℚ) (s : Score) (res : Result) :
    (computeFree idx s res).task_notes = res.task_notes := by
  unfold computeFree
  split <;> rfl

@[simp] lemma computeTask_free_expected (idx : ℚ) (asd : Option ℚ) (asn : Option String)
    (adecl : Option Bool) (td : Option ℚ) (tk : Option String) (ach : Bool) (res : Result) :
    (computeTask idx asd asn adecl td tk ach res).free_expected = res.free_expected := by
  unfold computeTask
  split
  · rfl
  · split <;> rfl

@[simp] lemma computeTask_free_actual (idx : ℚ) (asd : Option ℚ) (asn : Option String)
    (adecl : Option Bool) (td : Option ℚ) (tk : Option String) (ach : Bool) (res : Result) :
    (computeTask idx asd asn adecl td tk ach res).free_actual = res.free_actual := by
  unfold computeTask
  split
  · rfl
  · split <;> rfl

@[simp] lemma computeTask_task_actual (idx : ℚ) (asd : Option ℚ) (asn : Option String)
    (adecl : Option Bool) (td : Option ℚ) (tk : Option String) (ach : Bool) (res : Result) :
    (computeTask idx asd asn adecl td tk ach res).task_actual = res.task_actual := by
  unfold computeTask
  split
  · rfl
  · split <;> rfl

@[simp] lemma applyDeclaredFalse_free_expected (adecl : Option Bool) (res : Result) :
    (applyDeclaredFalse adecl res).free_expected = res.free_expected := by
  unfold applyDeclaredFalse
  split <;> rfl

@[simp] lemma applyDeclaredFalse_free_actual (adecl : Option Bool) (res : Result) :
    (applyDeclaredFalse adecl res).free_actual = res.free_actual := by
  unfold applyDeclaredFalse
  split <;> rfl

@[simp] lemma applyDeclaredFalse_task_actual (adecl : Option Bool) (res : Result) :
    (applyDeclaredFalse adecl res).task_actual = res.task_actual := by
  unfold applyDeclaredFalse
  split <;> rfl

@[simp] lemma applyDeclaredFalse_task_notes (adecl : Option Bool) (res : Result) :
    (applyDeclaredFalse adecl res).task_notes = res.task_notes := by
  unfold applyDeclaredFalse
  split <;> rfl

/-! Branch-evaluation lemmas for each stage. -/

lemma computeFree_of_some (idx : ℚ) (s : Score) (res : Result) (d : ℚ)
    (hd : s.distance = some d) (h0 : d ≠ 0) :
    computeFree idx s res =
      { res with free_expected := some (d * (1 + get_bonus s.name) / idx) } := by
  unfold computeFree
  rw [hd]
  simp [truthyQ, bne_iff_ne, h0]

lemma computeTask_path1 (idx : ℚ) (asd : Option ℚ) (asn : Option String)
    (adecl : Option Bool) (td : Option ℚ) (tk : Option String) (ach : Bool) (res : Result)
    (d : ℚ) (htd : td = some d) (h0 : d ≠ 0) :
    computeTask idx asd asn adecl td tk ach res =
      { res with
          task_expected :=
            some (d * (1 + get_bonus tk + (if ach then (30 : ℚ) / 100 else 0)) / idx),
          task_notes := "actual" } := by
  unfold computeTask
  rw [htd]
  simp [truthyQ, bne_iff_ne, h0]

lemma computeTask_path2 (idx : ℚ) (asd : Option ℚ) (asn : Option String)
    (adecl : Option Bool) (td : Option ℚ) (tk : Option String) (ach : Bool) (res : Result)
    (d : ℚ) (htd : truthyQ td = false) (hdecl : adecl = some true)
    (hasd : asd = some d) (h0 : d ≠ 0) :
    computeTask idx asd asn adecl td tk ach res =
      { res with
          task_expected := some (d * (1 + get_bonus asn + (30 : ℚ) / 100) / idx),
          task_notes := "from au distance" } := by
  unfold computeTask
  rw [htd, hdecl, hasd]
  simp [truthyQ, bne_iff_ne, h0]

lemma computeTask_skip (idx : ℚ) (asd : Option ℚ) (asn : Option String)
    (adecl : Option Bool) (td : Option ℚ) (tk : Option String) (ach : Bool) (res : Result)
    (htd : truthyQ td = false)
    (h2 : (adecl == some true && truthyQ asd) = false) :
    computeTask idx asd asn adecl td tk ach res = res := by
  unfold computeTask
  rw [htd, h2]
  simp

lemma applyDeclaredFalse_of_ne (adecl : Option Bool) (res : Result)
    (h : adecl ≠ some false) :
    applyDeclaredFalse adecl res = res := by
  unfold applyDeclaredFalse
  have hb : (adecl == some false) = false := by
    simpa [beq_iff_eq] using h
  rw [hb]
  simp

lemma applyDeclaredFalse_of_false (adecl : Option Bool) (res : Result)
    (ha : adecl = some false) (h : res.free_expected.isSome = true) :
    applyDeclaredFalse adecl res = { res with task_expected := none } := by
  subst ha
  unfold applyDeclaredFalse
  simp [h]

/-- Evaluation of one loop iteration once the qualifying guards hold: a present
nonzero handicap index and an `au` contest entry found in the contest list. -/
lemma processFlight_some (flight : Flight) (n : ℤ) (c : Contest)
    (hidx : flight.dmst_index = some n) (hn : n ≠ 0)
    (hau : findContest (flight.contest.getD []) "au" = some c) :
    processFlight flight =
      some (applyDeclaredFalse (scoreOrEmpty c).declared
        (computeTask ((n : ℚ) / 100) (scoreOrEmpty c).distance (scoreOrEmpty c).name
          (scoreOrEmpty c).declared (taskDistance flight) (taskKind flight)
          (flight.task_achieved == some true)
          (computeFree ((n : ℚ) / 100) (scoreOrEmpty c) (Result.init flight.id n)))) := by
  have hq : ((n : ℚ) / 100) ≠ 0 :=
    div_ne_zero (Int.cast_ne_zero.mpr hn) (by norm_num)
  unfold processFlight
  rw [hidx]
  simp [hn, hq, hau]

/-! Claim theorems. -/

/-- C1: for every record with a present nonzero handicap index and an `au` contest
entry whose score breakdown carries a present nonzero distance, the computed free
expected score is exactly `distance * (1 + bonus) / (index / 100)`, where the bonus
is `get_bonus` of the score's rule name (case-insensitive table lookup, 0 for
unrecognized or absent kinds). -/
theorem c1_free_expected_formula (f : Flight) (n : ℤ) (c : Contest) (d : ℚ)
    (hidx : f.dmst_index = some n) (hn : n ≠ 0)
    (hau : findContest (f.contest.getD []) "au" = some c)
    (hd : (scoreOrEmpty c).distance = some d) (h0 : d ≠ 0) :
    ∃ r, processFlight f = some r ∧
      r.free_expected =
        some (d * (1 + get_bonus (scoreOrEmpty c).name) / ((n : ℚ) / 100)) := by
  refine ⟨_, processFlight_some f n c hidx hn hau, ?_⟩
  rw [applyDeclaredFalse_free_expected, computeTask_free_expected,
      computeFree_of_some _ _ _ d hd h0]



/-- Witness for C1: handicap 100, `au` distance 300, kind `TR`. -/
theorem c1_free_expected_formula_witness :
    ∃ r, processFlight c1Flight = some r ∧
      r.free_expected =
        some ((300 : ℚ) * (1 + get_bonus (scoreOrEmpty c1Contest).name) /
          (((100 : ℤ) : ℚ) / 100)) :=
  c1_free_expected_formula c1Flight 100 c1Contest 300 rfl (by decide) rfl rfl (by decide)

/-- C2: for every qualifying record carrying a task sub-record with nonzero distance
(and no explicitly-false declared flag, which claim C4 shows would null the final
value), the task expected score comes from path 1 - the task's own distance and
kind plus the 0.30 achieved bonus - with note `actual`; the `au`-distance fallback
is not consulted even when the `au` declared flag is also true (see the witness). -/
theorem c2_task_path1_priority (f : Flight) (n : ℤ) (c : Contest) (td : ℚ)
    (hidx : f.dmst_index = some n) (hn : n ≠ 0)
    (hau : findContest (f.contest.getD []) "au" = some c)
    (htd : taskDistance f = some td) (h0 : td ≠ 0)
    (hdecl : (scoreOrEmpty c).declared ≠ some false) :
    ∃ r, processFlight f = some r ∧
      r.task_expected =
        some (td * (1 + get_bonus (taskKind f) +
          (if f.task_achieved == some true then (30 : ℚ) / 100 else 0)) /
          ((n : ℚ) / 100)) ∧
      r.task_notes = "actual" := by
  refine ⟨_, processFlight_some f n c hidx hn hau, ?_, ?_⟩
  · rw [applyDeclaredFalse_of_ne _ _ hdecl,
        computeTask_path1 _ _ _ _ _ _ _ _ td htd h0]
  · rw [applyDeclaredFalse_of_ne _ _ hdecl,
        computeTask_path1 _ _ _ _ _ _ _ _ td htd h0]



/-- Witness for C2: task 250 km kind `SP`, achieved, while the `au` contest also has
a declared nonzero distance - path 1 still wins and the note is `actual`. -/
theorem c2_task_path1_priority_witness :
    ∃ r, processFlight c2Flight = some r ∧
      r.task_expected =
        some ((250 : ℚ) * (1 + get_bonus (taskKind c2Flight) +
          (if c2Flight.task_achieved == some true then (30 : ℚ) / 100 else 0)) /
          (((100 : ℤ) : ℚ) / 100)) ∧
      r.task_notes = "actual" :=
  c2_task_path1_priority c2Flight 100 c2Contest 250 rfl (by decide) rfl rfl
    (by decide) (by decide)

/-- C3 (amended): with no truthy task distance but a declared-true `au` score with
nonzero distance, the task expected score is
`au_distance * (1 + bonus(au_name) + 0.30) / (index / 100)`; the provenance note the
code records is the literal `"from au distance"`, not `"from-declared-distance"`. -/
theorem c3_task_from_declared (f : Flight) (n : ℤ) (c : Contest) (d : ℚ)
    (hidx : f.dmst_index = some n) (hn : n ≠ 0)
    (hau : findContest (f.contest.getD []) "au" = some c)
    (hnt : truthyQ (taskDistance f) = false)
    (hdecl : (scoreOrEmpty c).declared = some true)
    (hd : (scoreOrEmpty c).distance = some d) (h0 : d ≠ 0) :
    ∃ r, processFlight f = some r ∧
      r.task_expected =
        some (d * (1 + get_bonus (scoreOrEmpty c).name + (30 : ℚ) / 100) /
          ((n : ℚ) / 100)) ∧
      r.task_notes = "from au distance" := by
  refine ⟨_, processFlight_some f n c hidx hn hau, ?_, ?_⟩
  · rw [applyDeclaredFalse_of_ne _ _ (by simp [hdecl]),
        computeTask_path2 _ _ _ _ _ _ _ _ d hnt hdecl hd h0]
  · rw [applyDeclaredFalse_of_ne _ _ (by simp [hdecl]),
        computeTask_path2 _ _ _ _ _ _ _ _ d hnt hdecl hd h0]



/-- Counterexample for C3 as stated: on the spec's own end-to-end scenario 1 input
the provenance note produced by the code is `"from au distance"`, which is not the
claimed literal `"from-declared-distance"`. -/
theorem c3_note_counterexample :
    (processFlight c3Flight).map Result.task_notes = some "from au distance" ∧
    "from au distance" ≠ "from-declared-distance" := by
  constructor
  · rw [processFlight_some c3Flight 100 c3Contest rfl (by decide) rfl]
    simp only [c3Flight, c3Contest, scoreOrEmpty, taskDistance, taskKind, Option.getD_some]
    rw [applyDeclaredFalse_of_ne _ _ (by decide),
        computeTask_path2 _ _ _ _ none _ _ _ 300 rfl rfl rfl (by decide)]
    rfl
  · decide

/-- Witness for the amended C3: scenario 1 - handicap 100, `au` score distance 300,
name `TR`, declared true, no task sub-record. -/
theorem c3_task_from_declared_witness :
    ∃ r, processFlight c3Flight = some r ∧
      r.task_expected =
        some ((300 : ℚ) * (1 + get_bonus (scoreOrEmpty c3Contest).name + (30 : ℚ) / 100) /
          (((100 : ℤ) : ℚ) / 100)) ∧
      r.task_notes = "from au distance" :=
  c3_task_from_declared c3Flight 100 c3Contest 300 rfl (by decide) rfl rfl rfl rfl
    (by decide)

/-- C4: when the `au` declared flag is explicitly false and a free expected score
was computed (nonzero `au` distance present), the final task expected score is null,
whatever the task branches produced. -/
theorem c4_declared_false_override (f : Flight) (n : ℤ) (c : Contest) (d : ℚ)
    (hidx : f.dmst_index = some n) (hn : n ≠ 0)
    (hau : findContest (f.contest.getD []) "au" = some c)
    (hdecl : (scoreOrEmpty c).declared = some false)
    (hd : (scoreOrEmpty c).distance = some d) (h0 : d ≠ 0) :
    ∃ r, processFlight f = some r ∧
      r.free_expected.isSome = true ∧ r.task_expected = none := by
  have hfree : (computeTask ((n : ℚ) / 100) (scoreOrEmpty c).distance (scoreOrEmpty c).name
      (scoreOrEmpty c).declared (taskDistance f) (taskKind f)
      (f.task_achieved == some true)
      (computeFree ((n : ℚ) / 100) (scoreOrEmpty c)
        (Result.init f.id n))).free_expected.isSome = true := by
    rw [computeTask_free_expected, computeFree_of_some _ _ _ d hd h0]
    rfl
  refine ⟨_, processFlight_some f n c hidx hn hau, ?_, ?_⟩
  · rw [applyDeclaredFalse_free_expected]
    exact hfree
  · rw [applyDeclaredFalse_of_false _ _ hdecl hfree]



/-- Witness for C4: scenario 4 - declared false with a present achieved task of
200 km kind `GOAL`; the free score exists and the task score is forced to null. -/
theorem c4_declared_false_override_witness :
    ∃ r, processFlight c4Flight = some r ∧
      r.free_expected.isSome = true ∧ r.task_expected = none :=
  c4_declared_false_override c4Flight 100 c4Contest 300 rfl (by decide) rfl rfl rfl
    (by decide)

/-! Lemmas for the reporter-side claims. -/

lemma processFlight_actual_none (f : Flight) (r : Result)
    (h : processFlight f = some r) :
    r.free_actual = none ∧ r.task_actual = none := by
  unfold processFlight at h
  split at h
  · exact Option.noConfusion h
  · split_ifs at h
    all_goals split at h
    all_goals try exact Option.noConfusion h
    all_goals simp only [Option.some.injEq] at h
    all_goals subst h
    all_goals simp

lemma free_matches_of_no_actual (r : Result) (h : r.free_actual = none) :
    r.free_matches = true := by
  unfold Result.free_matches
  rw [h]
  cases r.free_expected <;> rfl

lemma task_matches_of_no_actual (r : Result) (h : r.task_actual = none) :
    r.task_matches = true := by
  unfold Result.task_matches
  rw [h]
  cases r.task_expected <;> rfl

/-- C5: in every run, the actual-score fields of every produced result stay `none`
(no input field is ever wired to them), so every result matches on both score
types, both mismatch lists are empty and both printed mismatch counts are zero
(hence the sample-mismatch sections, which are guarded by non-emptiness, never
print). -/
theorem c5_actuals_never_set (flights : List Flight) :
    (∀ r ∈ processAll flights,
        r.free_actual = none ∧ r.task_actual = none ∧
        r.free_matches = true ∧ r.task_matches = true) ∧
    free_mismatches (processAll flights) = [] ∧
    task_mismatches (processAll flights) = [] ∧
    (free_mismatches (processAll flights)).length = 0 ∧
    (task_mismatches (processAll flights)).length = 0 := by
  have key : ∀ r ∈ processAll flights,
      r.free_actual = none ∧ r.task_actual = none ∧
      r.free_matches = true ∧ r.task_matches = true := by
    intro r hr
    unfold processAll at hr
    obtain ⟨f, _, hpf⟩ := List.mem_filterMap.mp hr
    obtain ⟨h1, h2⟩ := processFlight_actual_none f r hpf
    exact ⟨h1, h2, free_matches_of_no_actual r h1, task_matches_of_no_actual r h2⟩
  have hf : free_mismatches (processAll flights) = [] := by
    unfold free_mismatches
    rw [List.filter_eq_nil_iff]
    intro r hr
    simp [(key r hr).2.2.1]
  have ht : task_mismatches (processAll flights) = [] := by
    unfold task_mismatches
    rw [List.filter_eq_nil_iff]
    intro r hr
    simp [(key r hr).2.2.2]
  exact ⟨key, hf, ht, by rw [hf]; rfl, by rw [ht]; rfl⟩

/-- Witness for C5: a one-record run has empty mismatch lists. -/
theorem c5_actuals_never_set_witness :
    free_mismatches (processAll [c5Flight]) = [] ∧
    task_mismatches (processAll [c5Flight]) = [] :=
  ⟨(c5_actuals_never_set [c5Flight]).2.1, (c5_actuals_never_set [c5Flight]).2.2.1⟩

/-- C6: with both sides present, a result matches exactly when the absolute
difference is at most the 0.2-point tolerance - so a difference of exactly 0.2
matches and any strictly larger difference does not; the comparison is absolute. -/
theorem c6_tolerance_boundary (r s : Result) (e1 a1 e2 a2 : ℚ)
    (h1 : r.free_expected = some e1) (h2 : r.free_actual = some a1)
    (h3 : s.task_expected = some e2) (h4 : s.task_actual = some a2) :
    (r.free_matches = true ↔ |e1 - a1| ≤ TOLERANCE) ∧
    (s.task_matches = true ↔ |e2 - a2| ≤ TOLERANCE) := by
  constructor
  · unfold Result.free_matches
    rw [h1, h2]
    simp
  · unfold Result.task_matches
    rw [h3, h4]
    simp

/-- Witness for C6: a free pair differing by exactly 0.2 and a task pair differing
by 0.2000001. -/
theorem c6_tolerance_boundary_witness :
    (c6FreeRes.free_matches = true ↔ |(1 : ℚ) - 6 / 5| ≤ TOLERANCE) ∧
    (c6TaskRes.task_matches = true ↔ |(0 : ℚ) - 2000001 / 10000000| ≤ TOLERANCE) :=
  c6_tolerance_boundary c6FreeRes c6TaskRes 1 (6 / 5) 0 (2000001 / 10000000)
    rfl rfl rfl rfl

/-- C7: a null expected or actual value on a score type makes the result match
vacuously for that type, and such a result never appears in that type's mismatch
list. -/
theorem c7_null_vacuous_match (r : Result) (results : List Result)
    (h1 : r.free_expected = none ∨ r.free_actual = none)
    (h2 : r.task_expected = none ∨ r.task_actual = none) :
    r.free_matches = true ∧ r.task_matches = true ∧
    r ∉ free_mismatches results ∧ r ∉ task_mismatches results := by
  have hf : r.free_matches = true := by
    unfold Result.free_matches
    rcases h1 with h | h
    · rw [h]
    · rw [h]
      cases r.free_expected <;> rfl
  have ht : r.task_matches = true := by
    unfold Result.task_matches
    rcases h2 with h | h
    · rw [h]
    · rw [h]
      cases r.task_expected <;> rfl
  refine ⟨hf, ht, ?_, ?_⟩
  · simp [free_mismatches, List.mem_filter, hf]
  · simp [task_mismatches, List.mem_filter, ht]

/-- Witness for C7: the all-null result is never a mismatch, even as a member of
the scanned list. -/
theorem c7_null_vacuous_match_witness :
    c7Res.free_matches = true ∧ c7Res.task_matches = true ∧
    c7Res ∉ free_mismatches [c7Res] ∧ c7Res ∉ task_mismatches [c7Res] :=
  c7_null_vacuous_match c7Res [c7Res] (Or.inl rfl) (Or.inl rfl)

/-- C8: the bonus lookup is a total function agreeing with the spec's table on
every kind tag - case-insensitive listed kinds get their listed fraction, and
every unrecognized or absent tag gets 0 (never an error). -/
theorem c8_bonus_table_total (kind : Option String) :
    get_bonus kind = specBonus kind := by
  cases kind with
  | none => rfl
  | some k =>
    by_cases hk : k = ""
    · subst hk
      rfl
    · simp only [get_bonus, specBonus]
      rw [if_neg hk]
      generalize strUpper k = u
      by_cases h1 : u = "TR"
      · subst h1; rfl
      by_cases h2 : u = "TRIANGLE"
      · subst h2; rfl
      by_cases h3 : u = "DECLARATION"
      · subst h3; rfl
      by_cases h4 : u = "OR"
      · subst h4; rfl
      by_cases h5 : u = "OUT_RETURN"
      · subst h5; rfl
      by_cases h6 : u = "GL"
      · subst h6; rfl
      by_cases h7 : u = "OUT"
      · subst h7; rfl
      by_cases h8 : u = "GOAL"
      · subst h8; rfl
      by_cases h9 : u = "RT"
      · subst h9; rfl
      by_cases h10 : u = "RECTANGLE"
      · subst h10; rfl
      by_cases h11 : u = "MTR"
      · subst h11; rfl
      by_cases h12 : u = "FR"
      · subst h12; rfl
      by_cases h13 : u = "FR4"
      · subst h13; rfl
      by_cases h14 : u = "SP"
      · subst h14; rfl
      by_cases h15 : u = "SPEED"
      · subst h15; rfl
      have b : ∀ s : String, u ≠ s → (u == s) = false :=
        fun s hs => beq_eq_false_iff_ne.mpr hs
      simp [DMST_BONUS, List.lookup, specBonusKey,
        b _ h1, b _ h2, b _ h3, b _ h4, b _ h5, b _ h6, b _ h7, b _ h8,
        b _ h9, b _ h10, b _ h11, b _ h12, b _ h13, b _ h14, b _ h15,
        h1, h2, h3, h4, h5, h6, h7, h8, h9, h10, h11, h12, h13, h14, h15]

/-- C9: a record with a missing or zero handicap index, or without an `au` contest
entry, is skipped outright: no result is produced and the checked count (the
number of results of a run) is unchanged by the record. -/
theorem c9_skip_unqualified (f : Flight) (rest : List Flight)
    (h : f.dmst_index = none ∨ f.dmst_index = some 0 ∨
         findContest (f.contest.getD []) "au" = none) :
    processFlight f = none ∧ processAll (f :: rest) = processAll rest := by
  have hnone : processFlight f = none := by
    rcases h with h | h | h
    · unfold processFlight
      rw [h]
    · unfold processFlight
      rw [h]
      simp
    · unfold processFlight
      split
      · rfl
      · split_ifs
        all_goals try rfl
        all_goals rw [h]
  refine ⟨hnone, ?_⟩
  unfold processAll
  rw [List.filterMap_cons, hnone]

/-- Witness for C9: scenario 3 - `dmst_index = 0` is skipped and leaves the
checked population empty. -/
theorem c9_skip_unqualified_witness :
    processFlight c9Flight = none ∧ processAll [c9Flight] = processAll [] :=
  c9_skip_unqualified c9Flight [] (Or.inr (Or.inl rfl))

/-- C10: a record with handicap index -100 and a valid `au` contest is not
skipped: it is counted (one result from a one-record run) and its computed free
expected score is negative, because the skip guard only tests absence or zero. -/
theorem c10_negative_index_not_skipped :
    ∃ r, processFlight c10Flight = some r ∧
      (processAll [c10Flight]).length = 1 ∧
      ∃ q, r.free_expected = some q ∧ q < 0 := by
  refine ⟨_, processFlight_some c10Flight (-100) c10Contest rfl (by decide) rfl,
    ?_, ?_⟩
  · simp [processAll, List.filterMap_cons,
      processFlight_some c10Flight (-100) c10Contest rfl (by decide) rfl]
  · rw [applyDeclaredFalse_free_expected, computeTask_free_expected,
        computeFree_of_some _ _ _ 300 rfl (by decide)]
    refine ⟨_, rfl, ?_⟩
    have hb : get_bonus (scoreOrEmpty c10Contest).name = 40 / 100 := rfl
    rw [hb]
    norm_num

end QAScoring
